import Mathlib

/-
  Verification of the app-lifecycle controller `picasso/api/controllers/apps.py`.

  The controller (class `AppV1Controller`) exposes five operations over
  project-scoped apps: list, create, get, update, delete.  Each operation is a
  straight-line sequence of calls to a local registry (`picasso.models.app.Apps`)
  and a remote functions platform (`fnclient.apps`), composing a response view.

  Shallow embedding choices:
  * The local registry state is a `List App` (records in registry order).
  * Remote calls are parameterized by oracles `String -> Except Exc RemoteApp`
    etc.; an `Except.error` models the call raising an exception.
  * Each handler returns an `Outcome`: either a composed HTTP `Response`
    together with the resulting registry state and the trace of side-effecting
    calls issued, or an uncaught exception (`Outcome.raise`) with the state and
    trace at the raise point.
  * Python `getattr(ex, "status", 500)` is modelled by an `Option Nat` field
    with `Option.getD 500`; likewise for `reason`.
  * Python `list.pop()` (no argument) removes and returns the LAST element of a
    list; the controller uses it on the sequence returned by `find_by`, which we
    model with `List.getLast?` (the empty case would raise `IndexError`,
    modelled by `Outcome.raise popExc`).
  * Python `str[:30]` is the first 30 characters, modelled by `String.take`.
-/

namespace Picasso

/-- A local registry record: `(name, project_id, description)`. -/
structure App where
  name : String
  project_id : String
  description : String
  deriving Repr, DecidableEq

/-- A remote functions-platform resource, keyed by the derived app name. -/
structure RemoteApp where
  name : String
  deriving Repr, DecidableEq

/-- A Python exception as observed by the controller: `getattr(ex, "status", _)`
and `getattr(ex, "reason", _)` read optional attributes, and `str(ex)` is the
stringified exception. -/
structure Exc where
  status : Option Nat
  reason : Option String
  toStr : String
  deriving Repr, DecidableEq

/-- Side-effecting calls a handler can issue, in program order. -/
inductive Event where
  | remoteShow (name : String)
  | remoteCreate (name : String)
  | remoteUpdate (name : String)
  | remoteRoutesList (name : String)
  | remoteDelete (name : String)
  | localSave (a : App)
  | localDelete (project_id name : String)
  deriving Repr, DecidableEq

/-- Modelled from the spec: `picasso/api/views/app.py` is not under `src/`.
Per the spec, `AppView(app, fn_app).view()` produces a view merging the local
fields of the local record with the remote resource. -/
structure AppViewData where
  name : String
  project_id : String
  description : String
  remote : RemoteApp
  deriving Repr, DecidableEq

/-- Modelled from the spec: the view constructor `AppView(stored_app, fn_app).view()`. -/
def appView (a : App) (fa : RemoteApp) : AppViewData :=
  ⟨a.name, a.project_id, a.description, fa⟩

/-- Modelled from the spec: `picasso/models/app.py` is not under `src/`.  The
AppRegistry interface of the spec is `find_by(project_id[, name]) -> sequence<App>`,
returning the matching records in registry order. -/
def findBy (st : List App) (project_id : String) (name? : Option String) : List App :=
  st.filter (fun a =>
    a.project_id == project_id &&
      match name? with
      | none => true
      | some n => a.name == n)

/-- Modelled from the spec: `Apps.exists(name, project_id) -> bool`. -/
def appsExists (st : List App) (name project_id : String) : Bool :=
  st.any (fun a => a.name == name && a.project_id == project_id)

/-- Modelled from the spec: `Apps(...).save()` persists a new record. -/
def appsSave (st : List App) (a : App) : List App :=
  st ++ [a]

/-- Modelled from the spec: `Apps.delete(project_id=..., name=...)` removes the
matching record(s). -/
def appsDelete (st : List App) (project_id name : String) : List App :=
  st.filter (fun a => !(a.project_id == project_id && a.name == name))

/-- Response bodies composed by the controller. -/
inductive Body where
  | err (message : String)
  | appResp (app : AppViewData) (message : String)
  | appsResp (apps : List AppViewData) (message : String)
  | msgOnly (message : String)
  deriving Repr, DecidableEq

/-- An HTTP response: `web.json_response(data=..., status=...)`. -/
structure Response where
  status : Nat
  body : Body
  deriving Repr, DecidableEq

/-- Result of running one handler: a response together with the final registry
state and the trace of side-effecting calls, or an uncaught exception. -/
inductive Outcome where
  | resp (r : Response) (st : List App) (tr : List Event)
  | raise (e : Exc) (st : List App) (tr : List Event)
  deriving Repr, DecidableEq

/-- The registry state after the handler ran. -/
def Outcome.stateOf : Outcome → List App
  | .resp _ st _ => st
  | .raise _ st _ => st

/-- The trace of side-effecting calls the handler issued. -/
def Outcome.traceOf : Outcome → List Event
  | .resp _ _ tr => tr
  | .raise _ _ tr => tr

/-- The `IndexError` raised by `[].pop()`. -/
def popExc : Exc := ⟨none, none, "pop from empty list"⟩

/-- The request body of `create`: `data["app"]["name"]` is required,
`data["app"].get("description", ...)` is optional. -/
structure CreateBody where
  name : String
  description : Option String
  deriving Repr, DecidableEq

/-- Handler `AppV1Controller.create` (apps.py lines 63-123): derive the name as
the request name, a dash, and the project id, truncated by `[:30]` to the first
30 characters; if a record exists, 409 without any remote call;
otherwise create the remote app (uncaught on failure), save the local record
with the defaulted description, and return the merged view. -/
def create (st : List App) (project_id : String) (body : CreateBody)
    (createO : String → Except Exc RemoteApp) : Outcome :=
  let app_name := (body.name ++ "-" ++ project_id).take 30
  if appsExists st app_name project_id then
    .resp ⟨409, .err ("App " ++ app_name ++ " already exists")⟩ st []
  else
    match createO app_name with
    | .error e => .raise e st [.remoteCreate app_name]
    | .ok fa =>
      let stored : App :=
        ⟨app_name, project_id,
          body.description.getD ("App for project " ++ project_id)⟩
      .resp ⟨200, .appResp (appView stored fa) "App successfully created"⟩
        (appsSave st stored) [.remoteCreate app_name, .localSave stored]

/-- Handler `AppV1Controller.get` (apps.py lines 125-178): 404 when no local record;
otherwise the local record is `find_by(...).pop()` (the LAST element), then the
remote show is attempted, mapping a raised exception to
`getattr(ex, "status", 500)` / `getattr(ex, "reason", str(ex))`. -/
def get (st : List App) (project_id app : String)
    (showO : String → Except Exc RemoteApp) : Outcome :=
  if appsExists st app project_id then
    match (findBy st project_id (some app)).getLast? with
    | none => .raise popExc st []
    | some stored =>
      match showO app with
      | .error e =>
        .resp ⟨e.status.getD 500, .err (e.reason.getD e.toStr)⟩ st [.remoteShow app]
      | .ok fa =>
        .resp ⟨200, .appResp (appView stored fa) "Successfully loaded app"⟩ st
          [.remoteShow app]
  else
    .resp ⟨404, .err ("App " ++ app ++ " not found")⟩ st []

/-- Handler `AppV1Controller.update` (apps.py lines 180-235): 404 when no local record;
otherwise call remote update with the body forwarded (mapping a raised
exception like `get` does), then re-read the local record with
`find_by(...).pop()` and compose the view.  The local record is never written. -/
def update {δ : Type} (st : List App) (project_id app_name : String) (data : δ)
    (updateO : String → δ → Except Exc RemoteApp) : Outcome :=
  if appsExists st app_name project_id then
    match updateO app_name data with
    | .error e =>
      .resp ⟨e.status.getD 500, .err (e.reason.getD e.toStr)⟩ st
        [.remoteUpdate app_name]
    | .ok fa =>
      match (findBy st project_id (some app_name)).getLast? with
      | none => .raise popExc st [.remoteUpdate app_name]
      | some stored =>
        .resp ⟨200, .appResp (appView stored fa) "App successfully updated"⟩ st
          [.remoteUpdate app_name]
  else
    .resp ⟨404, .err ("App " ++ app_name ++ " not found")⟩ st []

/-- Handler `AppV1Controller.delete` (apps.py lines 237-296): 404 when no local record;
fetch the remote app and its route list inside one try (mapping a raised
exception to status/reason); if the route list is non-empty, 403 without
deleting anything; otherwise delete the local record first, then the remote
app. -/
def delete (st : List App) (project_id app : String)
    (showO : String → Except Exc RemoteApp)
    (routesO : RemoteApp → Except Exc (List String)) : Outcome :=
  if appsExists st app project_id then
    match showO app with
    | .error e =>
      .resp ⟨e.status.getD 500, .err (e.reason.getD e.toStr)⟩ st [.remoteShow app]
    | .ok fa =>
      match routesO fa with
      | .error e =>
        .resp ⟨e.status.getD 500, .err (e.reason.getD e.toStr)⟩ st
          [.remoteShow app, .remoteRoutesList app]
      | .ok routes =>
        if routes.isEmpty then
          .resp ⟨200, .msgOnly "App successfully deleted"⟩
            (appsDelete st project_id app)
            [.remoteShow app, .remoteRoutesList app,
              .localDelete project_id app, .remoteDelete app]
        else
          .resp ⟨403, .err ("Unable to delete app " ++ app ++ " with routes")⟩ st
            [.remoteShow app, .remoteRoutesList app]
  else
    .resp ⟨404, .err ("App " ++ app ++ " not found")⟩ st []

/-- The loop body of `AppV1Controller.list`: for each stored app, show the
remote app and append the merged view; a raised exception is not caught. -/
def listViews (showO : String → Except Exc RemoteApp) :
    List App → Except (Exc × List Event) (List AppViewData × List Event)
  | [] => .ok ([], [])
  | a :: rest =>
    match showO a.name with
    | .error e => .error (e, [.remoteShow a.name])
    | .ok fa =>
      match listViews showO rest with
      | .error (e, tr) => .error (e, .remoteShow a.name :: tr)
      | .ok (vs, tr) => .ok (appView a fa :: vs, .remoteShow a.name :: tr)

/-- Handler `AppV1Controller.list` (apps.py lines 30-61): fetch all records for the
project, merge each with its remote app, return 200 with the views; any
exception from a remote show propagates uncaught. -/
def list (st : List App) (project_id : String)
    (showO : String → Except Exc RemoteApp) : Outcome :=
  match listViews showO (findBy st project_id none) with
  | .error (e, tr) => .raise e st tr
  | .ok (vs, tr) =>
    .resp ⟨200, .appsResp vs "Successfully listed applications"⟩ st tr

/-- Concrete oracle: the remote show succeeds for every name. -/
def okShow : String → Except Exc RemoteApp := fun n => .ok ⟨n⟩

/-- Concrete oracle: the remote update succeeds for every name. -/
def okUpdate : String → Unit → Except Exc RemoteApp := fun n _ => .ok ⟨n⟩

/-- Concrete oracle: every remote call raises a 404 exception. -/
def failRemote : String → Except Exc RemoteApp :=
  fun _ => .error ⟨some 404, some "App not found", "ClientError 404"⟩

/-- Concrete oracle: the route listing returns no routes. -/
def noRoutes : RemoteApp → Except Exc (List String) := fun _ => .ok []

/-- Concrete oracle: the route listing returns two routes. -/
def twoRoutes : RemoteApp → Except Exc (List String) := fun _ => .ok ["r1", "r2"]

/-- Concrete oracle: the remote update raises a 400 exception. -/
def failUpdate : String → Unit → Except Exc RemoteApp :=
  fun _ _ => .error ⟨some 400, some "Bad request", "ClientError 400"⟩

/-- A registry holding two records with the same `(project_id, name)` and
different descriptions. -/
def dupSt : List App :=
  [⟨"a-p", "p", "d1"⟩, ⟨"a-p", "p", "d2"⟩]

theorem appsExists_iff (st : List App) (name project_id : String) :
    appsExists st name project_id = true ↔
      ∃ a ∈ st, a.project_id = project_id ∧ a.name = name := by
  simp only [appsExists, List.any_eq_true, Bool.and_eq_true, beq_iff_eq]
  exact ⟨fun ⟨a, ha, h1, h2⟩ => ⟨a, ha, h2, h1⟩, fun ⟨a, ha, h1, h2⟩ => ⟨a, ha, h2, h1⟩⟩

theorem findBy_eq_nil_iff (st : List App) (project_id name : String) :
    findBy st project_id (some name) = [] ↔
      appsExists st name project_id = false := by
  rw [findBy, List.filter_eq_nil_iff]
  rw [← Bool.not_eq_true (appsExists st name project_id), appsExists_iff]
  constructor
  · intro h ⟨a, ha, h1, h2⟩
    exact h a ha (by simp [h1, h2])
  · intro h a ha hpa
    simp only [Bool.and_eq_true, beq_iff_eq] at hpa
    exact h ⟨a, ha, hpa.1, hpa.2⟩

theorem findBy_getLast?_ne_none (st : List App) (project_id name : String)
    (h : appsExists st name project_id = true) :
    (findBy st project_id (some name)).getLast? ≠ none := by
  intro hn
  rw [List.getLast?_eq_none_iff, findBy_eq_nil_iff] at hn
  rw [h] at hn
  exact Bool.true_eq_false.mp hn

/-- C1: for every create request whose derived name
(request name, dash, project id, truncated to 30 characters) already exists in
the local registry for that project, `create` returns status 409 with an error
message and issues no side-effecting call at all; in particular it does not
invoke the app-creation call of the remote platform. -/
theorem create_conflict_409_no_remote (st : List App) (project_id : String)
    (body : CreateBody) (createO : String → Except Exc RemoteApp)
    (h : appsExists st ((body.name ++ "-" ++ project_id).take 30) project_id = true) :
    create st project_id body createO =
      .resp ⟨409, .err ("App " ++ (body.name ++ "-" ++ project_id).take 30 ++
        " already exists")⟩ st [] ∧
    Event.remoteCreate ((body.name ++ "-" ++ project_id).take 30) ∉
      (create st project_id body createO).traceOf := by
  simp [create, h, Outcome.traceOf]

/-- Witness for C1 at a concrete registry and request body. -/
theorem create_conflict_409_no_remote_witness :
    create [⟨"billing-p1", "p1", "d"⟩] "p1" ⟨"billing", none⟩ okShow =
      .resp ⟨409, .err ("App " ++ ("billing" ++ "-" ++ "p1").take 30 ++
        " already exists")⟩ [⟨"billing-p1", "p1", "d"⟩] [] ∧
    Event.remoteCreate (("billing" ++ "-" ++ "p1").take 30) ∉
      (create [⟨"billing-p1", "p1", "d"⟩] "p1" ⟨"billing", none⟩ okShow).traceOf :=
  create_conflict_409_no_remote _ _ _ _
    (by set_option maxRecDepth 10000 in decide)

/-- C2: for every delete request where the local record exists and the remote
route list of the remote app is non-empty, `delete` returns status 403, the registry is
unchanged, and the trace contains only the two read calls: neither the local
delete nor the remote delete is performed. -/
theorem delete_with_routes_403_no_deletion (st : List App) (project_id app : String)
    (showO : String → Except Exc RemoteApp)
    (routesO : RemoteApp → Except Exc (List String)) (fa : RemoteApp)
    (rs : List String) (h1 : appsExists st app project_id = true)
    (h2 : showO app = .ok fa) (h3 : routesO fa = .ok rs) (h4 : rs ≠ []) :
    delete st project_id app showO routesO =
      .resp ⟨403, .err ("Unable to delete app " ++ app ++ " with routes")⟩ st
        [.remoteShow app, .remoteRoutesList app] ∧
    (delete st project_id app showO routesO).stateOf = st ∧
    Event.localDelete project_id app ∉ (delete st project_id app showO routesO).traceOf ∧
    Event.remoteDelete app ∉ (delete st project_id app showO routesO).traceOf := by
  have hne : rs.isEmpty = false := by
    cases rs with
    | nil => exact absurd rfl h4
    | cons a l => rfl
  simp [delete, h1, h2, h3, hne, Outcome.stateOf, Outcome.traceOf]

/-- Witness for C2: a registry with one record, a remote app with two routes. -/
theorem delete_with_routes_403_no_deletion_witness :
    delete [⟨"billing-p1", "p1", "d"⟩] "p1" "billing-p1" okShow twoRoutes =
      .resp ⟨403, .err ("Unable to delete app " ++ "billing-p1" ++ " with routes")⟩
        [⟨"billing-p1", "p1", "d"⟩]
        [.remoteShow "billing-p1", .remoteRoutesList "billing-p1"] ∧
    (delete [⟨"billing-p1", "p1", "d"⟩] "p1" "billing-p1" okShow twoRoutes).stateOf =
      [⟨"billing-p1", "p1", "d"⟩] ∧
    Event.localDelete "p1" "billing-p1" ∉
      (delete [⟨"billing-p1", "p1", "d"⟩] "p1" "billing-p1" okShow twoRoutes).traceOf ∧
    Event.remoteDelete "billing-p1" ∉
      (delete [⟨"billing-p1", "p1", "d"⟩] "p1" "billing-p1" okShow twoRoutes).traceOf :=
  delete_with_routes_403_no_deletion _ _ _ _ _ ⟨"billing-p1"⟩ ["r1", "r2"]
    (by set_option maxRecDepth 10000 in decide) rfl rfl (by decide)

/-- C3: for every create request that reaches the save (no conflict, remote
creation succeeded), the name of the stored record is exactly the request
name, a dash, and the project id, truncated to the first 30 characters, and the
new registry is the old one with that record appended. -/
theorem create_stores_truncated_name (st : List App) (project_id : String)
    (body : CreateBody) (createO : String → Except Exc RemoteApp) (fa : RemoteApp)
    (h1 : appsExists st ((body.name ++ "-" ++ project_id).take 30) project_id = false)
    (h2 : createO ((body.name ++ "-" ++ project_id).take 30) = .ok fa) :
    ∃ d : String,
      create st project_id body createO =
        .resp ⟨200,
            .appResp
              (appView ⟨(body.name ++ "-" ++ project_id).take 30, project_id, d⟩ fa)
              "App successfully created"⟩
          (appsSave st ⟨(body.name ++ "-" ++ project_id).take 30, project_id, d⟩)
          [.remoteCreate ((body.name ++ "-" ++ project_id).take 30),
            .localSave ⟨(body.name ++ "-" ++ project_id).take 30, project_id, d⟩] := by
  refine ⟨body.description.getD ("App for project " ++ project_id), ?_⟩
  simp [create, h1, h2]

/-- Witness for C3: a 41-character concatenation is cut to its first 30
characters. -/
theorem create_stores_truncated_name_witness :
    ∃ d : String,
      create [] "project-number-one" ⟨"a-rather-long-app-name", some "d"⟩ okShow =
        .resp ⟨200,
            .appResp
              (appView
                ⟨(("a-rather-long-app-name" : String) ++ "-" ++
                    "project-number-one").take 30, "project-number-one", d⟩
                ⟨(("a-rather-long-app-name" : String) ++ "-" ++
                    "project-number-one").take 30⟩)
              "App successfully created"⟩
          (appsSave []
            ⟨(("a-rather-long-app-name" : String) ++ "-" ++
                "project-number-one").take 30, "project-number-one", d⟩)
          [.remoteCreate
              ((("a-rather-long-app-name" : String) ++ "-" ++
                "project-number-one").take 30),
            .localSave
              ⟨(("a-rather-long-app-name" : String) ++ "-" ++
                  "project-number-one").take 30, "project-number-one", d⟩] :=
  create_stores_truncated_name [] "project-number-one"
    ⟨"a-rather-long-app-name", some "d"⟩ okShow
    ⟨(("a-rather-long-app-name" : String) ++ "-" ++ "project-number-one").take 30⟩
    (by decide) rfl

/-- C4: for every get, update, or delete request where no local App record
matches `(project_id, app)`, the operation returns status 404 and issues no
side-effecting call at all: no remote call is made. -/
theorem missing_record_404_no_remote {δ : Type} (st : List App)
    (project_id app : String) (data : δ)
    (showO : String → Except Exc RemoteApp)
    (updateO : String → δ → Except Exc RemoteApp)
    (routesO : RemoteApp → Except Exc (List String))
    (h : appsExists st app project_id = false) :
    get st project_id app showO =
      .resp ⟨404, .err ("App " ++ app ++ " not found")⟩ st [] ∧
    update st project_id app data updateO =
      .resp ⟨404, .err ("App " ++ app ++ " not found")⟩ st [] ∧
    delete st project_id app showO routesO =
      .resp ⟨404, .err ("App " ++ app ++ " not found")⟩ st [] := by
  refine ⟨?_, ?_, ?_⟩ <;> simp [get, update, delete, h]

/-- Witness for C4 on an empty registry. -/
theorem missing_record_404_no_remote_witness :
    get [] "p1" "billing-p1" okShow =
      .resp ⟨404, .err ("App " ++ "billing-p1" ++ " not found")⟩ [] [] ∧
    update [] "p1" "billing-p1" () okUpdate =
      .resp ⟨404, .err ("App " ++ "billing-p1" ++ " not found")⟩ [] [] ∧
    delete [] "p1" "billing-p1" okShow noRoutes =
      .resp ⟨404, .err ("App " ++ "billing-p1" ++ " not found")⟩ [] [] :=
  missing_record_404_no_remote [] "p1" "billing-p1" () okShow okUpdate noRoutes rfl

/-- C5: for every get or update request where the local record exists and the
remote call raises an exception, the response status is the declared `status`
attribute of the exception (500 when absent) and the message is its declared
`reason` attribute (the stringified exception when absent). -/
theorem remote_error_status_reason {δ : Type} (st : List App)
    (project_id app : String) (data : δ)
    (showO : String → Except Exc RemoteApp)
    (updateO : String → δ → Except Exc RemoteApp) (e e' : Exc)
    (h1 : appsExists st app project_id = true)
    (h2 : showO app = .error e) (h3 : updateO app data = .error e') :
    get st project_id app showO =
      .resp ⟨e.status.getD 500, .err (e.reason.getD e.toStr)⟩ st [.remoteShow app] ∧
    update st project_id app data updateO =
      .resp ⟨e'.status.getD 500, .err (e'.reason.getD e'.toStr)⟩ st
        [.remoteUpdate app] := by
  constructor
  · cases hL : (findBy st project_id (some app)).getLast? with
    | none => exact absurd hL (findBy_getLast?_ne_none st project_id app h1)
    | some stored => simp [get, h1, hL, h2]
  · simp [update, h1, h3]

/-- Witness for C5: a remote exception with status 404 on get and 400 on
update is surfaced unchanged. -/
theorem remote_error_status_reason_witness :
    get [⟨"billing-p1", "p1", "d"⟩] "p1" "billing-p1" failRemote =
      .resp ⟨(Exc.mk (some 404) (some "App not found") "ClientError 404").status.getD 500,
          .err ((Exc.mk (some 404) (some "App not found")
            "ClientError 404").reason.getD
              (Exc.mk (some 404) (some "App not found") "ClientError 404").toStr)⟩
        [⟨"billing-p1", "p1", "d"⟩] [.remoteShow "billing-p1"] ∧
    update [⟨"billing-p1", "p1", "d"⟩] "p1" "billing-p1" () failUpdate =
      .resp ⟨(Exc.mk (some 400) (some "Bad request") "ClientError 400").status.getD 500,
          .err ((Exc.mk (some 400) (some "Bad request")
            "ClientError 400").reason.getD
              (Exc.mk (some 400) (some "Bad request") "ClientError 400").toStr)⟩
        [⟨"billing-p1", "p1", "d"⟩] [.remoteUpdate "billing-p1"] :=
  remote_error_status_reason _ _ _ () failRemote failUpdate _ _
    (by set_option maxRecDepth 10000 in decide) rfl rfl

theorem appsExists_append_matching (st : List App) (a : App) :
    appsExists (st ++ [a]) a.name a.project_id = true := by
  simp [appsExists]

theorem findBy_append_matching (st : List App) (project_id n d : String) :
    findBy (st ++ [⟨n, project_id, d⟩]) project_id (some n) =
      findBy st project_id (some n) ++ [⟨n, project_id, d⟩] := by
  simp [findBy]

/-- C6: a successful create followed immediately by get on the derived name
returns a 200 view whose local fields equal the submitted values: name is the
derived name, project is the project of the request, and the description is
the submitted one or, when omitted, the default built from the project id. -/
theorem create_then_get_roundtrip (st : List App) (project_id : String)
    (body : CreateBody) (createO showO : String → Except Exc RemoteApp)
    (fa fa' : RemoteApp) (dn : String)
    (hdn : dn = (body.name ++ "-" ++ project_id).take 30)
    (h1 : appsExists st dn project_id = false)
    (h2 : createO dn = .ok fa) (h3 : showO dn = .ok fa') :
    get (create st project_id body createO).stateOf project_id dn showO =
      .resp ⟨200,
          .appResp
            (appView ⟨dn, project_id,
              body.description.getD ("App for project " ++ project_id)⟩ fa')
            "Successfully loaded app"⟩
        (create st project_id body createO).stateOf [.remoteShow dn] := by
  have hst : (create st project_id body createO).stateOf =
      st ++ [⟨dn, project_id,
        body.description.getD ("App for project " ++ project_id)⟩] := by
    simp only [create, ← hdn, h1, Bool.false_eq_true, if_false, h2]
    rfl
  rw [hst]
  have hex := appsExists_append_matching st
    ⟨dn, project_id, body.description.getD ("App for project " ++ project_id)⟩
  have hfb := findBy_append_matching st project_id dn
    (body.description.getD ("App for project " ++ project_id))
  simp [get, hex, hfb, List.getLast?_concat, h3]

/-- Witness for C6: create `billing` in `p1` with no description, then get
`billing-p1`. -/
theorem create_then_get_roundtrip_witness :
    get (create [] "p1" ⟨"billing", none⟩ okShow).stateOf "p1"
        ((("billing" : String) ++ "-" ++ "p1").take 30) okShow =
      .resp ⟨200,
          .appResp
            (appView ⟨(("billing" : String) ++ "-" ++ "p1").take 30, "p1",
              (Option.getD none ("App for project " ++ "p1"))⟩
              ⟨(("billing" : String) ++ "-" ++ "p1").take 30⟩)
            "Successfully loaded app"⟩
        (create [] "p1" ⟨"billing", none⟩ okShow).stateOf
        [.remoteShow ((("billing" : String) ++ "-" ++ "p1").take 30)] :=
  create_then_get_roundtrip [] "p1" ⟨"billing", none⟩ okShow okShow
    ⟨(("billing" : String) ++ "-" ++ "p1").take 30⟩
    ⟨(("billing" : String) ++ "-" ++ "p1").take 30⟩
    _ rfl (by decide) rfl rfl

/-- C7 counterexample: the local record used by `get` is NOT the first record
of the sequence returned by the registry lookup.  On a registry holding two
records for `(p, a-p)` with descriptions `d1` then `d2`, the first returned
record carries `d1`, but the response view is built from the record carrying
`d2` (the Python call `list.pop()` takes the last element). -/
theorem get_first_record_counterexample :
    (findBy dupSt "p" (some "a-p")).head? = some ⟨"a-p", "p", "d1"⟩ ∧
    get dupSt "p" "a-p" okShow =
      .resp ⟨200, .appResp (appView ⟨"a-p", "p", "d2"⟩ ⟨"a-p"⟩)
          "Successfully loaded app"⟩
        dupSt [.remoteShow "a-p"] ∧
    appView (⟨"a-p", "p", "d1"⟩ : App) ⟨"a-p"⟩ ≠
      appView ⟨"a-p", "p", "d2"⟩ ⟨"a-p"⟩ := by
  set_option maxRecDepth 10000 in decide

/-- C7 as amended: for every get request where the local record exists, the
local App used to build the response view is the LAST record of the sequence
returned by the registry lookup for `(project_id, app)`; when exactly one
record matches, it is that record. -/
theorem get_uses_last_matching_record (st : List App) (project_id app : String)
    (showO : String → Except Exc RemoteApp) (fa : RemoteApp) (stored : App)
    (hL : (findBy st project_id (some app)).getLast? = some stored)
    (h2 : showO app = .ok fa) :
    get st project_id app showO =
      .resp ⟨200, .appResp (appView stored fa) "Successfully loaded app"⟩ st
        [.remoteShow app] ∧
    ∀ b : App, findBy st project_id (some app) = [b] → stored = b := by
  have hex : appsExists st app project_id = true := by
    cases hc : appsExists st app project_id with
    | true => rfl
    | false =>
      rw [← findBy_eq_nil_iff] at hc
      rw [hc] at hL
      simp at hL
  refine ⟨by simp [get, hex, hL, h2], ?_⟩
  intro b hb
  rw [hb] at hL
  simpa using hL.symm

/-- Witness for the amended C7 on the duplicate registry: the record used is
the second (last) one. -/
theorem get_uses_last_matching_record_witness :
    get dupSt "p" "a-p" okShow =
      .resp ⟨200, .appResp (appView ⟨"a-p", "p", "d2"⟩ ⟨"a-p"⟩)
          "Successfully loaded app"⟩
        dupSt [.remoteShow "a-p"] ∧
    ∀ b : App, findBy dupSt "p" (some "a-p") = [b] → (⟨"a-p", "p", "d2"⟩ : App) = b :=
  get_uses_last_matching_record dupSt "p" "a-p" okShow ⟨"a-p"⟩ ⟨"a-p", "p", "d2"⟩
    (by set_option maxRecDepth 10000 in decide) rfl

/-- C8: for every delete request that reaches the deletion step (local record
exists, remote fetch succeeded, route list empty), both deletions are
performed and the local App record is deleted strictly before the
RemoteFunctionApp. -/
theorem delete_local_before_remote (st : List App) (project_id app : String)
    (showO : String → Except Exc RemoteApp)
    (routesO : RemoteApp → Except Exc (List String)) (fa : RemoteApp)
    (h1 : appsExists st app project_id = true)
    (h2 : showO app = .ok fa) (h3 : routesO fa = .ok []) :
    delete st project_id app showO routesO =
      .resp ⟨200, .msgOnly "App successfully deleted"⟩
        (appsDelete st project_id app)
        [.remoteShow app, .remoteRoutesList app, .localDelete project_id app,
          .remoteDelete app] ∧
    ∃ tr₁ tr₂ tr₃ : List Event,
      (delete st project_id app showO routesO).traceOf =
        tr₁ ++ [Event.localDelete project_id app] ++ tr₂ ++
          [Event.remoteDelete app] ++ tr₃ := by
  have hmain : delete st project_id app showO routesO =
      .resp ⟨200, .msgOnly "App successfully deleted"⟩
        (appsDelete st project_id app)
        [.remoteShow app, .remoteRoutesList app, .localDelete project_id app,
          .remoteDelete app] := by
    simp [delete, h1, h2, h3]
  refine ⟨hmain, [Event.remoteShow app, Event.remoteRoutesList app], [], [], ?_⟩
  rw [hmain]
  rfl

/-- Witness for C8 on a one-record registry with a route-free remote app. -/
theorem delete_local_before_remote_witness :
    delete [⟨"billing-p1", "p1", "d"⟩] "p1" "billing-p1" okShow noRoutes =
      .resp ⟨200, .msgOnly "App successfully deleted"⟩
        (appsDelete [⟨"billing-p1", "p1", "d"⟩] "p1" "billing-p1")
        [.remoteShow "billing-p1", .remoteRoutesList "billing-p1",
          .localDelete "p1" "billing-p1", .remoteDelete "billing-p1"] ∧
    ∃ tr₁ tr₂ tr₃ : List Event,
      (delete [⟨"billing-p1", "p1", "d"⟩] "p1" "billing-p1" okShow
          noRoutes).traceOf =
        tr₁ ++ [Event.localDelete "p1" "billing-p1"] ++ tr₂ ++
          [Event.remoteDelete "billing-p1"] ++ tr₃ :=
  delete_local_before_remote _ _ _ _ _ ⟨"billing-p1"⟩
    (by set_option maxRecDepth 10000 in decide) rfl rfl

/-- C9: for every update request, the local App record is never written: the
registry is unchanged in every branch of `update`, and the only
side-effecting call `update` ever issues is the remote update call. -/
theorem update_never_writes_local (δ : Type) (st : List App)
    (project_id app_name : String) (data : δ)
    (updateO : String → δ → Except Exc RemoteApp) :
    (update st project_id app_name data updateO).stateOf = st ∧
    ∀ ev ∈ (update st project_id app_name data updateO).traceOf,
      ev = Event.remoteUpdate app_name := by
  cases hex : appsExists st app_name project_id with
  | false => simp [update, hex, Outcome.stateOf, Outcome.traceOf]
  | true =>
    cases hu : updateO app_name data with
    | error e => simp [update, hex, hu, Outcome.stateOf, Outcome.traceOf]
    | ok fa =>
      cases hL : (findBy st project_id (some app_name)).getLast? with
      | none => simp [update, hex, hu, hL, Outcome.stateOf, Outcome.traceOf]
      | some stored => simp [update, hex, hu, hL, Outcome.stateOf, Outcome.traceOf]

/-- Witness for C9: a concrete update request with new field values leaves
the registry unchanged. -/
theorem update_never_writes_local_witness :
    (update [⟨"billing-p1", "p1", "d"⟩] "p1" "billing-p1" () okUpdate).stateOf =
      [⟨"billing-p1", "p1", "d"⟩] ∧
    ∀ ev ∈ (update [⟨"billing-p1", "p1", "d"⟩] "p1" "billing-p1" ()
        okUpdate).traceOf,
      ev = Event.remoteUpdate "billing-p1" :=
  update_never_writes_local Unit [⟨"billing-p1", "p1", "d"⟩] "p1" "billing-p1" ()
    okUpdate

theorem listViews_error_of_mem (showO : String → Except Exc RemoteApp)
    (l : List App) (a : App) (e : Exc) (ha : a ∈ l)
    (he : showO a.name = .error e) :
    ∃ p, listViews showO l = .error p := by
  induction l with
  | nil => cases ha
  | cons b rest ih =>
    rcases List.mem_cons.mp ha with h | h
    · subst h
      exact ⟨(e, [.remoteShow a.name]), by simp [listViews, he]⟩
    · cases hb : showO b.name with
      | error e' => exact ⟨(e', [.remoteShow b.name]), by simp [listViews, hb]⟩
      | ok fa =>
        obtain ⟨p, hp⟩ := ih h
        exact ⟨(p.1, .remoteShow b.name :: p.2), by simp [listViews, hb, hp]⟩

/-- C10: for every list request, if the remote lookup for any stored app
raises an exception, `list` does not catch it: the outcome is an uncaught
exception, not a response, so no partial list of already-processed apps is
returned. -/
theorem list_uncaught_remote_failure (st : List App) (project_id : String)
    (showO : String → Except Exc RemoteApp) (a : App) (e : Exc)
    (ha : a ∈ findBy st project_id none) (he : showO a.name = .error e) :
    (∃ e' tr, list st project_id showO = .raise e' st tr) ∧
    ∀ r st' tr, list st project_id showO ≠ .resp r st' tr := by
  obtain ⟨p, hp⟩ := listViews_error_of_mem showO (findBy st project_id none) a e ha he
  constructor
  · exact ⟨p.1, p.2, by simp [list, hp]⟩
  · intro r st' tr hresp
    rw [list, hp] at hresp
    exact Outcome.noConfusion hresp

/-- Witness for C10: a one-record registry whose remote lookup fails makes
`list` abort with an uncaught exception. -/
theorem list_uncaught_remote_failure_witness :
    (∃ e' tr, list [⟨"billing-p1", "p1", "d"⟩] "p1" failRemote =
      .raise e' [⟨"billing-p1", "p1", "d"⟩] tr) ∧
    ∀ r st' tr, list [⟨"billing-p1", "p1", "d"⟩] "p1" failRemote ≠
      .resp r st' tr :=
  list_uncaught_remote_failure [⟨"billing-p1", "p1", "d"⟩] "p1" failRemote
    ⟨"billing-p1", "p1", "d"⟩ ⟨some 404, some "App not found", "ClientError 404"⟩
    (by set_option maxRecDepth 10000 in decide) rfl

end Picasso
